import Mathlib

/-!
Verification of the credential broker of google-workspace-mcp.

The development shallowly embeds the credential broker (`src/api.ts`,
read here as source part_001) and the OAuth authorization flow of
`src/index.ts`.  JS `Map`s and the token object are modelled as string-keyed
association lists; the external library calls of the authorization flow
(`oauth2.getToken`, the Gmail profile query, `encodeURIComponent`) are
modelled as explicit oracle parameters, and `JSON.parse` of the state
parameter as its three possible outcomes.
-/

namespace GWorkspace

/-- String-keyed association map, modelling both the JS `tokens` object and
the JS `Map` caches of `WorkspaceAPI`. -/
abbrev SMap (α : Type) := List (String × α)

/-- Lookup of the first binding of a key (JS `Map.get` / property read). -/
def SMap.find {α : Type} : SMap α → String → Option α
  | [], _ => none
  | (k, v) :: rest, key => if k = key then some v else SMap.find rest key

/-- Insert or replace a binding (JS `Map.set` / property write). -/
def SMap.set {α : Type} : SMap α → String → α → SMap α
  | [], key, v => [(key, v)]
  | (k, w) :: rest, key, v =>
    if k = key then (key, v) :: rest else (k, w) :: SMap.set rest key v

/-- Remove the bindings of a key (JS `Map.delete` / `delete obj[k]`). -/
def SMap.del {α : Type} : SMap α → String → SMap α
  | [], _ => []
  | (k, w) :: rest, key =>
    if k = key then SMap.del rest key else (k, w) :: SMap.del rest key

/-- The fixed allow-list (`ALLOWED_ACCOUNTS` in api.ts). -/
def ALLOWED_ACCOUNTS : List String :=
  ["nick@outliyr.com", "outliyraffiliates@gmail.com", "iamnickurban@gmail.com"]

/-- Function `isAllowedAccount` from api.ts. -/
def isAllowedAccount (account : String) : Bool :=
  ALLOWED_ACCOUNTS.contains account

/-- The fixed scope set (`SCOPES` in api.ts). -/
def SCOPES : List String :=
  ["https://mail.google.com/",
   "https://www.googleapis.com/auth/calendar",
   "https://www.googleapis.com/auth/drive",
   "https://www.googleapis.com/auth/contacts"]

/-- The delegated service-account identity (`WORKSPACE_ACCOUNT` in api.ts). -/
def WORKSPACE_ACCOUNT : String := "nick@outliyr.com"

/-- Structure `TokenConfig` from api.ts: one stored refresh-token record. -/
structure TokenConfig where
  client_id : String
  client_secret : String
  refresh_token : String
deriving DecidableEq, Repr

/-- A credential object: either a service-account `JWT` (delegated strategy)
or an `OAuth2Client` seeded with a refresh token (OAuth strategy). -/
inductive Credential where
  | jwt (keyFile : String) (scopes : List String) (subject : String)
  | oauth2 (client_id : String) (client_secret : String) (refresh_token : String)
deriving DecidableEq, Repr

/-- A service client, as built by `google.gmail` / `google.calendar` /
`google.drive` / `google.people`: a binding of an auth credential to one
service surface.  The account records which key the client was built for. -/
structure ServiceClient where
  account : String
  cred : Credential
deriving DecidableEq, Repr

/-- Errors thrown by `WorkspaceAPI.auth`. -/
inductive AuthError where
  | accountNotAllowed (account : String)
  | noRefreshToken (account : String)
deriving DecidableEq, Repr

/-- File-system operations performed by `saveToken` (`fs.mkdirSync`,
`fs.writeFileSync`; `rename` is included to state the atomic-write
discipline, which the code could but does not use).  Written content is
modelled as the token map it serializes. -/
inductive FsOp where
  | mkdirRecursive (path : String)
  | writeFile (path : String) (content : SMap TokenConfig)
  | rename (src : String) (dst : String)
deriving DecidableEq, Repr

/-- Split a character list at every occurrence of a separator character. -/
def splitOnChar (c : Char) : List Char → List (List Char)
  | [] => [[]]
  | x :: xs =>
    let rest := splitOnChar c xs
    if x = c then [] :: rest
    else
      match rest with
      | [] => [[x]]
      | r :: rs => (x :: r) :: rs

/-- Models `tokensFile.substring(0, tokensFile.lastIndexOf "/")`: the directory part
of the path, `""` when the path contains no slash. -/
def dirOf (path : String) : String :=
  let parts := splitOnChar '/' path.toList
  if parts.length ≤ 1 then ""
  else String.mk (List.intercalate ['/'] parts.dropLast)

/-- The mutable state of one `WorkspaceAPI` instance. -/
structure WorkspaceAPI where
  keyFile : String
  tokensFile : String
  tokens : SMap TokenConfig
  authClients : SMap Credential
  gmailClients : SMap ServiceClient
  calendarClients : SMap ServiceClient
  driveClients : SMap ServiceClient
  peopleClients : SMap ServiceClient
deriving DecidableEq, Repr

/-- Method `WorkspaceAPI.loadTokens`.  The file read and JSON parse are modelled by
`fileContent`: `some m` when the file exists and parses to the map `m`,
`none` when reading or parsing throws.  On success the parsed map replaces
`tokens` and every cache is cleared; on failure the catch block only resets
`tokens` to empty. -/
def WorkspaceAPI.loadTokens (s : WorkspaceAPI) (fileContent : Option (SMap TokenConfig)) :
    WorkspaceAPI :=
  match fileContent with
  | some m =>
    { s with tokens := m, authClients := [], gmailClients := [],
             calendarClients := [], driveClients := [], peopleClients := [] }
  | none => { s with tokens := [] }

/-- The `WorkspaceAPI` constructor: fields initialised, then `loadTokens`. -/
def initAPI (keyFile tokensFile : String) (fileContent : Option (SMap TokenConfig)) :
    WorkspaceAPI :=
  WorkspaceAPI.loadTokens
    { keyFile := keyFile, tokensFile := tokensFile, tokens := [], authClients := [],
      gmailClients := [], calendarClients := [], driveClients := [], peopleClients := [] }
    fileContent

/-- Method `WorkspaceAPI.saveToken`: merge the record into `tokens`, create the
parent directory when the path has one, write the full map to the tokens
file, and delete the saved email's entry from each of the five caches.
Returns the new state together with the trace of file-system operations. -/
def WorkspaceAPI.saveToken (s : WorkspaceAPI) (email : String) (token : TokenConfig) :
    WorkspaceAPI × List FsOp :=
  let tokens' := s.tokens.set email token
  let dir := dirOf s.tokensFile
  let ops := (if dir = "" then [] else [FsOp.mkdirRecursive dir]) ++
    [FsOp.writeFile s.tokensFile tokens']
  ({ s with tokens := tokens',
            authClients := s.authClients.del email,
            gmailClients := s.gmailClients.del email,
            calendarClients := s.calendarClients.del email,
            driveClients := s.driveClients.del email,
            peopleClients := s.peopleClients.del email }, ops)

/-- Method `WorkspaceAPI.getConfiguredAccounts`: the delegated identity first, then
every key of the token map not already listed. -/
def WorkspaceAPI.getConfiguredAccounts (s : WorkspaceAPI) : List String :=
  s.tokens.foldl
    (fun accounts p => if accounts.contains p.1 then accounts else accounts ++ [p.1])
    [WORKSPACE_ACCOUNT]

/-- Method `WorkspaceAPI.auth`: reject identities outside the allow-list; otherwise
return the cached credential, or build one (JWT for the delegated account,
OAuth2 from the stored record otherwise) and cache it. -/
def WorkspaceAPI.auth (s : WorkspaceAPI) (account : String) :
    Except AuthError (Credential × WorkspaceAPI) :=
  if isAllowedAccount account then
    match s.authClients.find account with
    | some c => Except.ok (c, s)
    | none =>
      if account = WORKSPACE_ACCOUNT then
        let c := Credential.jwt s.keyFile SCOPES account
        Except.ok (c, { s with authClients := s.authClients.set account c })
      else
        match s.tokens.find account with
        | none => Except.error (AuthError.noRefreshToken account)
        | some tc =>
          let c := Credential.oauth2 tc.client_id tc.client_secret tc.refresh_token
          Except.ok (c, { s with authClients := s.authClients.set account c })
  else Except.error (AuthError.accountNotAllowed account)

/-- The credential `auth` yields, forgetting the state. -/
def WorkspaceAPI.authCred (s : WorkspaceAPI) (account : String) : Option Credential :=
  match WorkspaceAPI.auth s account with
  | Except.ok (c, _) => some c
  | Except.error _ => none

/-- Method `WorkspaceAPI.gmail`: return the cached service client, or build one on
the resolved credential and cache it. -/
def WorkspaceAPI.gmail (s : WorkspaceAPI) (account : String) :
    Except AuthError (ServiceClient × WorkspaceAPI) :=
  match s.gmailClients.find account with
  | some c => Except.ok (c, s)
  | none =>
    match WorkspaceAPI.auth s account with
    | Except.error e => Except.error e
    | Except.ok (cred, s') =>
      let c := ServiceClient.mk account cred
      Except.ok (c, { s' with gmailClients := s'.gmailClients.set account c })

/-- Method `WorkspaceAPI.calendar`, same shape as `gmail`. -/
def WorkspaceAPI.calendar (s : WorkspaceAPI) (account : String) :
    Except AuthError (ServiceClient × WorkspaceAPI) :=
  match s.calendarClients.find account with
  | some c => Except.ok (c, s)
  | none =>
    match WorkspaceAPI.auth s account with
    | Except.error e => Except.error e
    | Except.ok (cred, s') =>
      let c := ServiceClient.mk account cred
      Except.ok (c, { s' with calendarClients := s'.calendarClients.set account c })

/-- Method `WorkspaceAPI.drive`, same shape as `gmail`. -/
def WorkspaceAPI.drive (s : WorkspaceAPI) (account : String) :
    Except AuthError (ServiceClient × WorkspaceAPI) :=
  match s.driveClients.find account with
  | some c => Except.ok (c, s)
  | none =>
    match WorkspaceAPI.auth s account with
    | Except.error e => Except.error e
    | Except.ok (cred, s') =>
      let c := ServiceClient.mk account cred
      Except.ok (c, { s' with driveClients := s'.driveClients.set account c })

/-- Method `WorkspaceAPI.people`, same shape as `gmail`. -/
def WorkspaceAPI.people (s : WorkspaceAPI) (account : String) :
    Except AuthError (ServiceClient × WorkspaceAPI) :=
  match s.peopleClients.find account with
  | some c => Except.ok (c, s)
  | none =>
    match WorkspaceAPI.auth s account with
    | Except.error e => Except.error e
    | Except.ok (cred, s') =>
      let c := ServiceClient.mk account cred
      Except.ok (c, { s' with peopleClients := s'.peopleClients.set account c })

/-- One externally triggerable operation on a `WorkspaceAPI` instance. -/
inductive Op where
  | loadTokens (fileContent : Option (SMap TokenConfig))
  | saveToken (email : String) (token : TokenConfig)
  | auth (account : String)
  | gmail (account : String)
  | calendar (account : String)
  | drive (account : String)
  | people (account : String)

/-- The state after one operation (a thrown `AuthError` leaves the state of
the failing call unchanged). -/
def step (s : WorkspaceAPI) (op : Op) : WorkspaceAPI :=
  match op with
  | Op.loadTokens fc => s.loadTokens fc
  | Op.saveToken e t => (s.saveToken e t).1
  | Op.auth a =>
    match s.auth a with
    | Except.ok (_, s') => s'
    | Except.error _ => s
  | Op.gmail a =>
    match s.gmail a with
    | Except.ok (_, s') => s'
    | Except.error _ => s
  | Op.calendar a =>
    match s.calendar a with
    | Except.ok (_, s') => s'
    | Except.error _ => s
  | Op.drive a =>
    match s.drive a with
    | Except.ok (_, s') => s'
    | Except.error _ => s
  | Op.people a =>
    match s.people a with
    | Except.ok (_, s') => s'
    | Except.error _ => s

/-- Run a sequence of operations from a state. -/
def run (s : WorkspaceAPI) (ops : List Op) : WorkspaceAPI :=
  ops.foldl step s

/-! ### Allow-list invariants of the caches -/

/-- All keys of the map lie in the allow-list. -/
def keysAllowed {α : Type} : SMap α → Bool
  | [] => true
  | (k, _) :: rest => isAllowedAccount k && keysAllowed rest

/-- Every key of the credential cache and of the four service-client caches
is in the allow-list. -/
def cachesAllowed (s : WorkspaceAPI) : Prop :=
  keysAllowed s.authClients = true ∧ keysAllowed s.gmailClients = true ∧
    keysAllowed s.calendarClients = true ∧ keysAllowed s.driveClients = true ∧
    keysAllowed s.peopleClients = true

/-! ### C6: the token-file write discipline -/

/-- Does the trace contain a direct write to the given path? -/
def writesDirect (ops : List FsOp) (path : String) : Bool :=
  ops.any (fun op =>
    match op with
    | FsOp.writeFile p _ => p = path
    | _ => false)

/-- Does the trace contain any rename at all? -/
def hasRename (ops : List FsOp) : Bool :=
  ops.any (fun op =>
    match op with
    | FsOp.rename _ _ => true
    | _ => false)

/-- The spec's prescribed atomic-replace discipline, stated from its words:
the final path is never written directly, and some rename targets it. -/
def atomicReplaceDiscipline (ops : List FsOp) (finalPath : String) : Bool :=
  !writesDirect ops finalPath &&
    ops.any (fun op =>
      match op with
      | FsOp.rename _ dst => dst = finalPath
      | _ => false)

/-! ### The error translator `handleApiError` -/

/-- An upstream error as dispatched by `handleApiError`: an object carrying
a `response` (with its optional HTTP status and the message extracted from
the response body), a thrown `Error` with its message, or anything else
(modelled by its string rendering). -/
inductive ApiError where
  | response (status : Option Nat) (msg : String)
  | exception (msg : String)
  | other (text : String)
deriving DecidableEq, Repr

/-- Is `pat` a prefix of the list? -/
def isPrefixList : List Char → List Char → Bool
  | [], _ => true
  | _ :: _, [] => false
  | p :: ps, x :: xs => p = x && isPrefixList ps xs

/-- Does `pat` occur as a contiguous sublist? -/
def containsSubList (pat : List Char) : List Char → Bool
  | [] => isPrefixList pat []
  | x :: xs => isPrefixList pat (x :: xs) || containsSubList pat xs

/-- JS `String.includes`: does `pat` occur as a substring of `s`? -/
def containsSub (s pat : String) : Bool :=
  containsSubList pat.toList s.toList

/-- Function `handleApiError` from api.ts.  The extraction of the message from the
response body (`data.error.message`, a string body, or its JSON rendering)
is abstracted as the resulting string `msg`; a JS `undefined` status prints
as `undefined` in the default branch. -/
def handleApiError : ApiError → String
  | ApiError.response status msg =>
    match status with
    | some 400 => "Bad request: " ++ msg
    | some 401 =>
      "Auth failed — check credentials. For nick@outliyr.com: verify domain-wide delegation. For Gmail accounts: refresh token may be revoked, re-run generate-token. "
        ++ msg
    | some 403 => "Forbidden — ensure the required API scope is granted. " ++ msg
    | some 404 => "Not found: " ++ msg
    | some 429 => "Rate limited. Wait and try again."
    | some s => "Google API error " ++ toString s ++ ": " ++ msg
    | none => "Google API error undefined: " ++ msg
  | ApiError.exception msg =>
    if containsSub msg "invalid_grant" then
      "Refresh token revoked or expired. Re-run: npm run generate-token"
    else if containsSub msg "No refresh token" then
      msg ++ ". Visit /setup on the server to authorize."
    else "Error: " ++ msg
  | ApiError.other text => "Unexpected error: " ++ text

/-- The message the program surfaces for an upstream error when a tool call
acted on behalf of `account`: `toolHandler` catches the error and calls
`handleApiError`, which never receives the account — the parameter is
therefore dropped, exactly as in the source call path. -/
def messageFor (_account : String) (err : ApiError) : String :=
  handleApiError err

/-! ### The authorization flow of index.ts -/

/-- The parse outcome of the callback's `state` query parameter
(`JSON.parse` of `stateRaw` into an `account`/`token` pair): the parameter
may be absent, fail to parse, or parse to the embedded pair. -/
inductive StateParse where
  | missing
  | malformed
  | parsed (account : String) (token : String)
deriving DecidableEq, Repr

/-- A request to `GET /oauth2callback`: the `error`, `code` and `state`
query parameters. -/
structure CallbackReq where
  errorParam : Option String
  code : Option String
  stateParam : StateParse
deriving DecidableEq, Repr

/-- The outcome of `oauth2.getToken(code)`: a thrown exchange error, or a
token response whose `refresh_token` may be absent. -/
inductive ExchangeResult where
  | failure (msg : String)
  | success (refresh_token : Option String)
deriving DecidableEq, Repr

/-- What the callback handler did: the HTTP status and body it sent,
whether `oauth2.getToken` was reached, and the broker state afterwards. -/
structure CallbackOutcome where
  status : Nat
  body : String
  didExchange : Bool
  api : WorkspaceAPI
deriving DecidableEq, Repr

/-- Models `accounts.map(a => "<li>" + a + "</li>").join("")`. -/
def listItemsHtml (accounts : List String) : String :=
  String.join (accounts.map (fun a => "<li>" ++ a ++ "</li>"))

/-- The body sent when the provider returned no refresh token. -/
def noRefreshTokenBody : String :=
  "<h1>No refresh token received</h1> <p>This usually means the app already has access. Revoke it at <a href=\"https://myaccount.google.com/permissions\">Google Account Permissions</a>, then try again.</p>"

/-- The success body of the callback. -/
def successBody (email : String) (configured : List String)
    (enc : String → String) (setupSecret : String) : String :=
  "<h1>Success!</h1> <p>Token saved for: <strong>" ++ email ++
    "</strong></p> <h2>All configured accounts:</h2> <ul>" ++
    listItemsHtml configured ++
    "</ul> <p><a href=\"/setup?token=" ++ enc setupSecret ++
    "\">Back to setup</a></p>"

/-- The `GET /oauth2callback` handler of index.ts.  External effects are
oracle parameters: `exchange` is the outcome of `oauth2.getToken code`,
`profile` the outcome of querying the authorized account's own Gmail
profile with the freshly obtained credential (its confirmed email address),
and `enc` is `encodeURIComponent`. -/
def oauth2callback (setupToken : Option String)
    (googleClientId googleClientSecret : String) (api : WorkspaceAPI)
    (req : CallbackReq) (exchange : String → ExchangeResult)
    (profile : Except String String) (enc : String → String) : CallbackOutcome :=
  match req.errorParam with
  | some err =>
    ⟨400, "<h1>Authorization failed</h1><p>" ++ err ++ "</p>", false, api⟩
  | none =>
    match req.code with
    | none => ⟨400, "<h1>Missing code or state</h1>", false, api⟩
    | some code =>
      match req.stateParam with
      | StateParse.missing => ⟨400, "<h1>Missing code or state</h1>", false, api⟩
      | StateParse.malformed => ⟨400, "<h1>Invalid state</h1>", false, api⟩
      | StateParse.parsed _account stoken =>
        if setupToken = some stoken then
          match exchange code with
          | ExchangeResult.failure msg =>
            ⟨500, "<h1>Token exchange failed</h1><p>" ++ msg ++ "</p>", true, api⟩
          | ExchangeResult.success none => ⟨400, noRefreshTokenBody, true, api⟩
          | ExchangeResult.success (some rt) =>
            match profile with
            | Except.error msg =>
              ⟨500, "<h1>Token exchange failed</h1><p>" ++ msg ++ "</p>", true, api⟩
            | Except.ok email =>
              let api' := (api.saveToken email
                ⟨googleClientId, googleClientSecret, rt⟩).1
              ⟨200, successBody email api'.getConfiguredAccounts enc stoken, true, api'⟩
        else ⟨403, "<h1>Invalid setup token</h1>", false, api⟩

/-- A request to `GET /setup`: the `token` and `account` query parameters. -/
structure SetupReq where
  token : Option String
  account : Option String
deriving DecidableEq, Repr

/-- The redirect `generateAuthUrl` builds: offline access, the full scope
set, forced consent, the target account as login hint, and the
`account`/`setup secret` pair bound into the state parameter. -/
structure AuthUrl where
  access_type : String
  scope : List String
  prompt : String
  login_hint : String
  stateAccount : String
  stateToken : String
deriving DecidableEq, Repr

/-- The response of `GET /setup`: the 403 rejection, the 200 listing page of
configured accounts, or the 302 redirect into the consent flow. -/
inductive SetupResponse where
  | forbidden
  | listing (configured : List String)
  | redirect (url : AuthUrl)
deriving DecidableEq, Repr

/-- The `GET /setup` handler of index.ts. -/
def setupHandler (setupToken : Option String) (api : WorkspaceAPI)
    (req : SetupReq) : Nat × SetupResponse :=
  match setupToken with
  | none => (403, SetupResponse.forbidden)
  | some st =>
    if req.token = some st then
      match req.account with
      | none => (200, SetupResponse.listing api.getConfiguredAccounts)
      | some account =>
        (302, SetupResponse.redirect ⟨"offline", SCOPES, "consent", account, account, st⟩)
    else (403, SetupResponse.forbidden)

/-! ### Association-map lemmas -/

theorem SMap.find_del_self {α : Type} (m : SMap α) (k : String) :
    (m.del k).find k = none := by
  induction m with
  | nil => rfl
  | cons p rest ih =>
    obtain ⟨k', v⟩ := p
    by_cases h : k' = k
    · simpa [SMap.del, h] using ih
    · simp [SMap.del, SMap.find, h, ih]

theorem SMap.find_del_ne {α : Type} (m : SMap α) (k a : String) (h : k ≠ a) :
    (m.del k).find a = m.find a := by
  induction m with
  | nil => rfl
  | cons p rest ih =>
    obtain ⟨k', v⟩ := p
    by_cases hk : k' = k
    · subst hk
      simp [SMap.del, SMap.find, h, ih]
    · by_cases ha : k' = a
      · simp [SMap.del, SMap.find, hk, ha, Ne.symm h]
      · simp [SMap.del, SMap.find, hk, ha, ih]

theorem SMap.find_set_self {α : Type} (m : SMap α) (k : String) (v : α) :
    (m.set k v).find k = some v := by
  induction m with
  | nil => simp [SMap.set, SMap.find]
  | cons p rest ih =>
    obtain ⟨k', w⟩ := p
    by_cases h : k' = k
    · simp [SMap.set, SMap.find, h]
    · simp [SMap.set, SMap.find, h, ih]

theorem SMap.find_set_ne {α : Type} (m : SMap α) (k a : String) (v : α) (h : k ≠ a) :
    (m.set k v).find a = m.find a := by
  induction m with
  | nil => simp [SMap.set, SMap.find, h]
  | cons p rest ih =>
    obtain ⟨k', w⟩ := p
    by_cases hk : k' = k
    · subst hk
      simp [SMap.set, SMap.find, h]
    · simp [SMap.set, SMap.find, hk, ih]

theorem keysAllowed_set {α : Type} (m : SMap α) (k : String) (v : α)
    (hm : keysAllowed m = true) (hk : isAllowedAccount k = true) :
    keysAllowed (m.set k v) = true := by
  induction m with
  | nil => simp [SMap.set, keysAllowed, hk]
  | cons p rest ih =>
    obtain ⟨k', w⟩ := p
    simp only [keysAllowed, Bool.and_eq_true] at hm
    by_cases h : k' = k
    · simp [SMap.set, keysAllowed, h, hk, hm.2]
    · simp [SMap.set, keysAllowed, h, hm.1, ih hm.2]

theorem keysAllowed_del {α : Type} (m : SMap α) (k : String)
    (hm : keysAllowed m = true) : keysAllowed (m.del k) = true := by
  induction m with
  | nil => simp [SMap.del, keysAllowed]
  | cons p rest ih =>
    obtain ⟨k', w⟩ := p
    simp only [keysAllowed, Bool.and_eq_true] at hm
    by_cases h : k' = k
    · simp [SMap.del, h, ih hm.2]
    · simp [SMap.del, keysAllowed, h, hm.1, ih hm.2]

theorem auth_ok_isAllowed (s : WorkspaceAPI) (a : String)
    (r : Credential × WorkspaceAPI) (h : s.auth a = Except.ok r) :
    isAllowedAccount a = true := by
  unfold WorkspaceAPI.auth at h
  cases hA : isAllowedAccount a with
  | false => simp [hA] at h
  | true => rfl

theorem cachesAllowed_auth (s : WorkspaceAPI) (a : String)
    (rc : Credential) (rs : WorkspaceAPI) (h : s.auth a = Except.ok (rc, rs))
    (hs : cachesAllowed s) : cachesAllowed rs := by
  obtain ⟨h1, h2, h3, h4, h5⟩ := hs
  have hA := auth_ok_isAllowed s a (rc, rs) h
  unfold WorkspaceAPI.auth at h
  simp only [hA, if_true] at h
  cases hf : s.authClients.find a with
  | some c =>
    simp [hf] at h
    obtain ⟨hc, hsEq⟩ := h
    subst hsEq
    exact ⟨h1, h2, h3, h4, h5⟩
  | none =>
    simp only [hf] at h
    by_cases hW : a = WORKSPACE_ACCOUNT
    · simp only [hW, if_true, if_pos rfl] at h
      simp only [Except.ok.injEq, Prod.mk.injEq] at h
      obtain ⟨hc, hsEq⟩ := h
      subst hsEq
      exact ⟨keysAllowed_set _ _ _ h1 (hW ▸ hA), h2, h3, h4, h5⟩
    · simp only [hW, if_false, if_neg hW] at h
      cases ht : s.tokens.find a with
      | none => simp [ht] at h
      | some tc =>
        simp only [ht, Except.ok.injEq, Prod.mk.injEq] at h
        obtain ⟨hc, hsEq⟩ := h
        subst hsEq
        exact ⟨keysAllowed_set _ _ _ h1 hA, h2, h3, h4, h5⟩

theorem cachesAllowed_gmail (s : WorkspaceAPI) (a : String)
    (rc : ServiceClient) (rs : WorkspaceAPI) (h : s.gmail a = Except.ok (rc, rs))
    (hs : cachesAllowed s) : cachesAllowed rs := by
  unfold WorkspaceAPI.gmail at h
  cases hf : s.gmailClients.find a with
  | some c =>
    simp [hf] at h
    obtain ⟨hc, hsEq⟩ := h
    subst hsEq
    exact hs
  | none =>
    simp only [hf] at h
    cases hauth : s.auth a with
    | error e => simp [hauth] at h
    | ok r =>
      obtain ⟨c0, s0⟩ := r
      have hA := auth_ok_isAllowed s a (c0, s0) hauth
      have hs0 := cachesAllowed_auth s a c0 s0 hauth hs
      obtain ⟨g1, g2, g3, g4, g5⟩ := hs0
      simp only [hauth, Except.ok.injEq, Prod.mk.injEq] at h
      obtain ⟨hc, hsEq⟩ := h
      subst hsEq
      exact ⟨g1, keysAllowed_set _ _ _ g2 hA, g3, g4, g5⟩

theorem cachesAllowed_calendar (s : WorkspaceAPI) (a : String)
    (rc : ServiceClient) (rs : WorkspaceAPI) (h : s.calendar a = Except.ok (rc, rs))
    (hs : cachesAllowed s) : cachesAllowed rs := by
  unfold WorkspaceAPI.calendar at h
  cases hf : s.calendarClients.find a with
  | some c =>
    simp [hf] at h
    obtain ⟨hc, hsEq⟩ := h
    subst hsEq
    exact hs
  | none =>
    simp only [hf] at h
    cases hauth : s.auth a with
    | error e => simp [hauth] at h
    | ok r =>
      obtain ⟨c0, s0⟩ := r
      have hA := auth_ok_isAllowed s a (c0, s0) hauth
      have hs0 := cachesAllowed_auth s a c0 s0 hauth hs
      obtain ⟨g1, g2, g3, g4, g5⟩ := hs0
      simp only [hauth, Except.ok.injEq, Prod.mk.injEq] at h
      obtain ⟨hc, hsEq⟩ := h
      subst hsEq
      exact ⟨g1, g2, keysAllowed_set _ _ _ g3 hA, g4, g5⟩

theorem cachesAllowed_drive (s : WorkspaceAPI) (a : String)
    (rc : ServiceClient) (rs : WorkspaceAPI) (h : s.drive a = Except.ok (rc, rs))
    (hs : cachesAllowed s) : cachesAllowed rs := by
  unfold WorkspaceAPI.drive at h
  cases hf : s.driveClients.find a with
  | some c =>
    simp [hf] at h
    obtain ⟨hc, hsEq⟩ := h
    subst hsEq
    exact hs
  | none =>
    simp only [hf] at h
    cases hauth : s.auth a with
    | error e => simp [hauth] at h
    | ok r =>
      obtain ⟨c0, s0⟩ := r
      have hA := auth_ok_isAllowed s a (c0, s0) hauth
      have hs0 := cachesAllowed_auth s a c0 s0 hauth hs
      obtain ⟨g1, g2, g3, g4, g5⟩ := hs0
      simp only [hauth, Except.ok.injEq, Prod.mk.injEq] at h
      obtain ⟨hc, hsEq⟩ := h
      subst hsEq
      exact ⟨g1, g2, g3, keysAllowed_set _ _ _ g4 hA, g5⟩

theorem cachesAllowed_people (s : WorkspaceAPI) (a : String)
    (rc : ServiceClient) (rs : WorkspaceAPI) (h : s.people a = Except.ok (rc, rs))
    (hs : cachesAllowed s) : cachesAllowed rs := by
  unfold WorkspaceAPI.people at h
  cases hf : s.peopleClients.find a with
  | some c =>
    simp [hf] at h
    obtain ⟨hc, hsEq⟩ := h
    subst hsEq
    exact hs
  | none =>
    simp only [hf] at h
    cases hauth : s.auth a with
    | error e => simp [hauth] at h
    | ok r =>
      obtain ⟨c0, s0⟩ := r
      have hA := auth_ok_isAllowed s a (c0, s0) hauth
      have hs0 := cachesAllowed_auth s a c0 s0 hauth hs
      obtain ⟨g1, g2, g3, g4, g5⟩ := hs0
      simp only [hauth, Except.ok.injEq, Prod.mk.injEq] at h
      obtain ⟨hc, hsEq⟩ := h
      subst hsEq
      exact ⟨g1, g2, g3, g4, keysAllowed_set _ _ _ g5 hA⟩

theorem cachesAllowed_step (s : WorkspaceAPI) (op : Op)
    (hs : cachesAllowed s) : cachesAllowed (step s op) := by
  obtain ⟨h1, h2, h3, h4, h5⟩ := hs
  cases op with
  | loadTokens fc =>
    cases fc with
    | some m => simp [step, WorkspaceAPI.loadTokens, cachesAllowed, keysAllowed]
    | none =>
      simp only [step, WorkspaceAPI.loadTokens]
      exact ⟨h1, h2, h3, h4, h5⟩
  | saveToken e t =>
    simp only [step, WorkspaceAPI.saveToken]
    exact ⟨keysAllowed_del _ _ h1, keysAllowed_del _ _ h2, keysAllowed_del _ _ h3,
      keysAllowed_del _ _ h4, keysAllowed_del _ _ h5⟩
  | auth a =>
    simp only [step]
    cases hr : s.auth a with
    | error e => exact ⟨h1, h2, h3, h4, h5⟩
    | ok r =>
      obtain ⟨rc, rs⟩ := r
      exact cachesAllowed_auth s a rc rs hr ⟨h1, h2, h3, h4, h5⟩
  | gmail a =>
    simp only [step]
    cases hr : s.gmail a with
    | error e => exact ⟨h1, h2, h3, h4, h5⟩
    | ok r =>
      obtain ⟨rc, rs⟩ := r
      exact cachesAllowed_gmail s a rc rs hr ⟨h1, h2, h3, h4, h5⟩
  | calendar a =>
    simp only [step]
    cases hr : s.calendar a with
    | error e => exact ⟨h1, h2, h3, h4, h5⟩
    | ok r =>
      obtain ⟨rc, rs⟩ := r
      exact cachesAllowed_calendar s a rc rs hr ⟨h1, h2, h3, h4, h5⟩
  | drive a =>
    simp only [step]
    cases hr : s.drive a with
    | error e => exact ⟨h1, h2, h3, h4, h5⟩
    | ok r =>
      obtain ⟨rc, rs⟩ := r
      exact cachesAllowed_drive s a rc rs hr ⟨h1, h2, h3, h4, h5⟩
  | people a =>
    simp only [step]
    cases hr : s.people a with
    | error e => exact ⟨h1, h2, h3, h4, h5⟩
    | ok r =>
      obtain ⟨rc, rs⟩ := r
      exact cachesAllowed_people s a rc rs hr ⟨h1, h2, h3, h4, h5⟩

theorem cachesAllowed_run (s : WorkspaceAPI) (ops : List Op)
    (hs : cachesAllowed s) : cachesAllowed (run s ops) := by
  induction ops generalizing s with
  | nil => exact hs
  | cons op rest ih => exact ih (step s op) (cachesAllowed_step s op hs)

theorem cachesAllowed_init (kf tf : String) (fc : Option (SMap TokenConfig)) :
    cachesAllowed (initAPI kf tf fc) := by
  cases fc with
  | some m => simp [initAPI, WorkspaceAPI.loadTokens, cachesAllowed, keysAllowed]
  | none => simp [initAPI, WorkspaceAPI.loadTokens, cachesAllowed, keysAllowed]

/-! ### C1: the allow-list is a hard boundary of credential resolution -/

/-- C1: for every account outside the fixed allow-list, credential
resolution (`WorkspaceAPI.auth`, also when reached through the four service
accessors on a cache miss) fails with `Account not allowed`, leaves the
instance state unchanged — so no credential is constructed or cached — and
this holds for every state, hence regardless of the token map's contents. -/
theorem c1_auth_rejects_disallowed (s : WorkspaceAPI) (account : String)
    (h : isAllowedAccount account = false) :
    s.auth account = Except.error (AuthError.accountNotAllowed account) ∧
    step s (Op.auth account) = s ∧
    (s.gmailClients.find account = none →
      s.gmail account = Except.error (AuthError.accountNotAllowed account)) ∧
    (s.calendarClients.find account = none →
      s.calendar account = Except.error (AuthError.accountNotAllowed account)) ∧
    (s.driveClients.find account = none →
      s.drive account = Except.error (AuthError.accountNotAllowed account)) ∧
    (s.peopleClients.find account = none →
      s.people account = Except.error (AuthError.accountNotAllowed account)) := by
  have hauth : s.auth account = Except.error (AuthError.accountNotAllowed account) := by
    unfold WorkspaceAPI.auth
    simp [h]
  refine ⟨hauth, ?_, ?_, ?_, ?_, ?_⟩
  · simp [step, hauth]
  · intro hc
    simp [WorkspaceAPI.gmail, hc, hauth]
  · intro hc
    simp [WorkspaceAPI.calendar, hc, hauth]
  · intro hc
    simp [WorkspaceAPI.drive, hc, hauth]
  · intro hc
    simp [WorkspaceAPI.people, hc, hauth]

/-- Witness for C1 at the fresh instance and the concrete disallowed account
`evil@example.com`, with a token record for that very account in the map. -/
theorem c1_auth_rejects_disallowed_witness :
    (initAPI "sa.json" "creds/tokens.json"
        (some [("evil@example.com", ⟨"cid", "csec", "rtok"⟩)])).auth "evil@example.com"
      = Except.error (AuthError.accountNotAllowed "evil@example.com") :=
  (c1_auth_rejects_disallowed
    (initAPI "sa.json" "creds/tokens.json"
      (some [("evil@example.com", ⟨"cid", "csec", "rtok"⟩)]))
    "evil@example.com" (by decide)).1

/-! ### C2: an upsert is observed by the immediately following resolution -/

/-- C2: for every allowed OAuth identity (allowed and distinct from the
delegated account), `saveToken acct tok` followed immediately by
`auth acct` yields the OAuth credential seeded with `tok.refresh_token` —
never a credential cached before the upsert. -/
theorem c2_saveToken_then_auth (s : WorkspaceAPI) (acct : String) (tok : TokenConfig)
    (hA : isAllowedAccount acct = true) (hO : acct ≠ WORKSPACE_ACCOUNT) :
    (s.saveToken acct tok).1.authCred acct
      = some (Credential.oauth2 tok.client_id tok.client_secret tok.refresh_token) := by
  unfold WorkspaceAPI.authCred WorkspaceAPI.auth WorkspaceAPI.saveToken
  simp [hA, hO, SMap.find_del_self, SMap.find_set_self]

/-- Witness for C2: a state that already holds a cached credential for the
account, built from an older record, still yields the fresh record's
credential right after the upsert. -/
theorem c2_saveToken_then_auth_witness :
    ({ keyFile := "sa.json", tokensFile := "creds/tokens.json",
       tokens := [("iamnickurban@gmail.com", ⟨"cid0", "csec0", "rtok0"⟩)],
       authClients := [("iamnickurban@gmail.com", Credential.oauth2 "cid0" "csec0" "rtok0")],
       gmailClients := [], calendarClients := [], driveClients := [],
       peopleClients := [] : WorkspaceAPI }.saveToken "iamnickurban@gmail.com"
        ⟨"cid1", "csec1", "rtok1"⟩).1.authCred "iamnickurban@gmail.com"
      = some (Credential.oauth2 "cid1" "csec1" "rtok1") :=
  c2_saveToken_then_auth _ "iamnickurban@gmail.com" ⟨"cid1", "csec1", "rtok1"⟩
    (by decide) (by decide)

/-! ### C9: only allow-listed keys ever enter the caches, while the token
map is unrestricted -/

/-- C9: in every reachable state of a `WorkspaceAPI` instance, every key of
the credential cache and of the four service-client caches is in the fixed
allow-list; yet `saveToken` places no allow-list restriction on the token
map, so a record can be stored under — and `getConfiguredAccounts` can
list — an identity outside the allow-list, which still never obtains a
credential. -/
theorem c9_cache_keys_allowed :
    (∀ (kf tf : String) (fc : Option (SMap TokenConfig)) (ops : List Op),
      cachesAllowed (run (initAPI kf tf fc) ops)) ∧
    (run (initAPI "sa.json" "creds/tokens.json" none)
        [Op.saveToken "outsider@example.com" ⟨"cid", "csec", "rtok"⟩]).tokens.find
          "outsider@example.com" = some ⟨"cid", "csec", "rtok"⟩ ∧
    (run (initAPI "sa.json" "creds/tokens.json" none)
        [Op.saveToken "outsider@example.com" ⟨"cid", "csec", "rtok"⟩]).getConfiguredAccounts
      = ["nick@outliyr.com", "outsider@example.com"] ∧
    isAllowedAccount "outsider@example.com" = false ∧
    (run (initAPI "sa.json" "creds/tokens.json" none)
        [Op.saveToken "outsider@example.com" ⟨"cid", "csec", "rtok"⟩]).auth
          "outsider@example.com"
      = Except.error (AuthError.accountNotAllowed "outsider@example.com") := by
  refine ⟨?_, by decide, by decide, by decide, by rfl⟩
  intro kf tf fc ops
  exact cachesAllowed_run _ ops (cachesAllowed_init kf tf fc)

/-! ### C7: cache invalidation on token-store changes -/

/-- C7 as stated is false: after `saveToken` for one identity, the cached
credential of a different identity survives — the upsert removes only the
upserted identity's cache entries, it is not a wholesale invalidation. -/
theorem c7_counterexample :
    ((run (initAPI "sa.json" "creds/tokens.json" none)
        [Op.auth "nick@outliyr.com"]).saveToken "iamnickurban@gmail.com"
          ⟨"cid", "csec", "rtok"⟩).1.authClients.find "nick@outliyr.com"
      = some (Credential.jwt "sa.json" SCOPES "nick@outliyr.com") := by decide

/-- C7 amended: on a successful reload every cached credential and service
client is cleared wholesale; after an upsert only the upserted identity's
entries are removed from each of the five caches, every other identity's
cached entries being left untouched. -/
theorem c7_amended (s : WorkspaceAPI) (m : SMap TokenConfig) (e : String)
    (t : TokenConfig) :
    ((s.loadTokens (some m)).authClients = [] ∧
      (s.loadTokens (some m)).gmailClients = [] ∧
      (s.loadTokens (some m)).calendarClients = [] ∧
      (s.loadTokens (some m)).driveClients = [] ∧
      (s.loadTokens (some m)).peopleClients = []) ∧
    ((s.saveToken e t).1.authClients.find e = none ∧
      (s.saveToken e t).1.gmailClients.find e = none ∧
      (s.saveToken e t).1.calendarClients.find e = none ∧
      (s.saveToken e t).1.driveClients.find e = none ∧
      (s.saveToken e t).1.peopleClients.find e = none) ∧
    (∀ k, k ≠ e →
      (s.saveToken e t).1.authClients.find k = s.authClients.find k ∧
      (s.saveToken e t).1.gmailClients.find k = s.gmailClients.find k ∧
      (s.saveToken e t).1.calendarClients.find k = s.calendarClients.find k ∧
      (s.saveToken e t).1.driveClients.find k = s.driveClients.find k ∧
      (s.saveToken e t).1.peopleClients.find k = s.peopleClients.find k) := by
  refine ⟨?_, ?_, ?_⟩
  · simp [WorkspaceAPI.loadTokens]
  · simp [WorkspaceAPI.saveToken, SMap.find_del_self]
  · intro k hk
    simp [WorkspaceAPI.saveToken, SMap.find_del_ne _ _ _ (Ne.symm hk)]

/-- Witness for C7 amended, at a concrete state holding a cached credential
for the delegated account and an upsert for a different identity. -/
theorem c7_amended_witness :
    ((run (initAPI "sa.json" "creds/tokens.json" none)
        [Op.auth "nick@outliyr.com"]).saveToken "iamnickurban@gmail.com"
          ⟨"cid", "csec", "rtok"⟩).1.authClients.find "nick@outliyr.com"
      = (run (initAPI "sa.json" "creds/tokens.json" none)
          [Op.auth "nick@outliyr.com"]).authClients.find "nick@outliyr.com" :=
  ((c7_amended (run (initAPI "sa.json" "creds/tokens.json" none)
      [Op.auth "nick@outliyr.com"]) [] "iamnickurban@gmail.com"
      ⟨"cid", "csec", "rtok"⟩).2.2 "nick@outliyr.com" (by decide)).1

/-- C6 as stated is false: `saveToken` performs a direct `writeFileSync` to
the tokens file and never renames, so the write does not follow the
temp-then-rename discipline the claim describes. -/
theorem c6_counterexample :
    atomicReplaceDiscipline
        ((initAPI "sa.json" "creds/tokens.json" none).saveToken
          "iamnickurban@gmail.com" ⟨"cid", "csec", "rtok"⟩).2 "creds/tokens.json"
      = false := by
  decide

/-- C6 amended: on every `saveToken` the full updated token map is written
back in a single direct write to the tokens-file path (after creating the
parent directory when the path has one); no temporary file and no rename
are involved, so no atomic-replace discipline is provided. -/
theorem c6_amended (s : WorkspaceAPI) (e : String) (t : TokenConfig) :
    hasRename (s.saveToken e t).2 = false ∧
    (s.saveToken e t).2.filterMap (fun op =>
        match op with
        | FsOp.writeFile p c => some (p, c)
        | _ => none)
      = [(s.tokensFile, s.tokens.set e t)] := by
  by_cases h : dirOf s.tokensFile = ""
  · simp [WorkspaceAPI.saveToken, hasRename, h, List.filterMap]
  · simp [WorkspaceAPI.saveToken, hasRename, h, List.filterMap]

theorem isPrefixList_append (pat xs m : List Char)
    (h : isPrefixList pat xs = true) : isPrefixList pat (xs ++ m) = true := by
  induction pat generalizing xs with
  | nil => rfl
  | cons p ps ih =>
    cases xs with
    | nil => simp [isPrefixList] at h
    | cons x rest =>
      simp only [isPrefixList, Bool.and_eq_true] at h
      simp only [List.cons_append, isPrefixList, Bool.and_eq_true]
      exact ⟨h.1, ih rest h.2⟩

theorem containsSubList_nil_left (m : List Char) :
    containsSubList [] m = true := by
  cases m with
  | nil => rfl
  | cons x xs => simp [containsSubList, isPrefixList]

theorem containsSubList_append (pat xs m : List Char)
    (h : containsSubList pat xs = true) : containsSubList pat (xs ++ m) = true := by
  induction xs with
  | nil =>
    cases pat with
    | nil => exact containsSubList_nil_left m
    | cons p ps => simp [containsSubList, isPrefixList] at h
  | cons x rest ih =>
    simp only [containsSubList, Bool.or_eq_true] at h
    simp only [List.cons_append, containsSubList, Bool.or_eq_true]
    cases h with
    | inl hp => exact Or.inl (isPrefixList_append pat (x :: rest) m hp)
    | inr hc => exact Or.inr (ih hc)

/-- If `pat` occurs in `p`, it occurs in `p ++ m`. -/
theorem containsSub_append_left (p m pat : String)
    (h : containsSub p pat = true) : containsSub (p ++ m) pat = true := by
  unfold containsSub at h ⊢
  rw [show (p ++ m).toList = p.toList ++ m.toList from String.data_append p m]
  exact containsSubList_append _ _ _ h

/-! ### C8: the 401 translation and the two identity strategies -/

/-- C8 as stated is false: at a concrete pair of 401 upstream errors, the
message produced on behalf of the delegated identity is the very same
string as the one produced on behalf of an OAuth identity — the translation
does not differentiate by identity. -/
theorem c8_counterexample :
    messageFor "nick@outliyr.com" (ApiError.response (some 401) "token expired")
      = messageFor "iamnickurban@gmail.com" (ApiError.response (some 401) "token expired") :=
  rfl

/-- C8 amended: the 401 translation is one identity-independent message; its
text carries both remediations at once — the delegated identity's
(domain-wide delegation for nick@outliyr.com) and the OAuth identities'
(re-run generate-token for Gmail accounts). -/
theorem c8_amended (a b msg : String) :
    messageFor a (ApiError.response (some 401) msg)
      = messageFor b (ApiError.response (some 401) msg) ∧
    containsSub (handleApiError (ApiError.response (some 401) msg))
      "For nick@outliyr.com: verify domain-wide delegation" = true ∧
    containsSub (handleApiError (ApiError.response (some 401) msg))
      "For Gmail accounts: refresh token may be revoked, re-run generate-token" = true := by
  refine ⟨rfl, ?_, ?_⟩
  · exact containsSub_append_left _ msg _ (by decide)
  · exact containsSub_append_left _ msg _ (by decide)

/-! ### Branch characterizations of the callback handler -/

theorem callback_error_some (st : Option String) (gid gsec : String)
    (api : WorkspaceAPI) (e : String) (c : Option String) (sp : StateParse)
    (ex : String → ExchangeResult) (pr : Except String String)
    (enc : String → String) :
    oauth2callback st gid gsec api ⟨some e, c, sp⟩ ex pr enc
      = ⟨400, "<h1>Authorization failed</h1><p>" ++ e ++ "</p>", false, api⟩ := rfl

theorem callback_code_none (st : Option String) (gid gsec : String)
    (api : WorkspaceAPI) (sp : StateParse) (ex : String → ExchangeResult)
    (pr : Except String String) (enc : String → String) :
    oauth2callback st gid gsec api ⟨none, none, sp⟩ ex pr enc
      = ⟨400, "<h1>Missing code or state</h1>", false, api⟩ := rfl

theorem callback_state_missing (st : Option String) (gid gsec : String)
    (api : WorkspaceAPI) (code : String) (ex : String → ExchangeResult)
    (pr : Except String String) (enc : String → String) :
    oauth2callback st gid gsec api ⟨none, some code, StateParse.missing⟩ ex pr enc
      = ⟨400, "<h1>Missing code or state</h1>", false, api⟩ := rfl

theorem callback_state_malformed (st : Option String) (gid gsec : String)
    (api : WorkspaceAPI) (code : String) (ex : String → ExchangeResult)
    (pr : Except String String) (enc : String → String) :
    oauth2callback st gid gsec api ⟨none, some code, StateParse.malformed⟩ ex pr enc
      = ⟨400, "<h1>Invalid state</h1>", false, api⟩ := rfl

theorem callback_secret_mismatch (st : Option String) (gid gsec : String)
    (api : WorkspaceAPI) (code a t : String) (ex : String → ExchangeResult)
    (pr : Except String String) (enc : String → String) (hne : st ≠ some t) :
    oauth2callback st gid gsec api ⟨none, some code, StateParse.parsed a t⟩ ex pr enc
      = ⟨403, "<h1>Invalid setup token</h1>", false, api⟩ := by
  unfold oauth2callback
  simp [hne]

theorem callback_exchange_failure (gid gsec : String) (api : WorkspaceAPI)
    (code a t msg : String) (ex : String → ExchangeResult)
    (pr : Except String String) (enc : String → String)
    (hx : ex code = ExchangeResult.failure msg) :
    oauth2callback (some t) gid gsec api ⟨none, some code, StateParse.parsed a t⟩ ex pr enc
      = ⟨500, "<h1>Token exchange failed</h1><p>" ++ msg ++ "</p>", true, api⟩ := by
  unfold oauth2callback
  simp [hx]

theorem callback_no_refresh (gid gsec : String) (api : WorkspaceAPI)
    (code a t : String) (ex : String → ExchangeResult)
    (pr : Except String String) (enc : String → String)
    (hx : ex code = ExchangeResult.success none) :
    oauth2callback (some t) gid gsec api ⟨none, some code, StateParse.parsed a t⟩ ex pr enc
      = ⟨400, noRefreshTokenBody, true, api⟩ := by
  unfold oauth2callback
  simp [hx]

theorem callback_profile_failure (gid gsec : String) (api : WorkspaceAPI)
    (code a t rt msg : String) (ex : String → ExchangeResult) (enc : String → String)
    (hx : ex code = ExchangeResult.success (some rt)) :
    oauth2callback (some t) gid gsec api ⟨none, some code, StateParse.parsed a t⟩ ex
        (Except.error msg) enc
      = ⟨500, "<h1>Token exchange failed</h1><p>" ++ msg ++ "</p>", true, api⟩ := by
  unfold oauth2callback
  simp [hx]

theorem callback_success (gid gsec : String) (api : WorkspaceAPI)
    (code a t rt email : String) (ex : String → ExchangeResult) (enc : String → String)
    (hx : ex code = ExchangeResult.success (some rt)) :
    oauth2callback (some t) gid gsec api ⟨none, some code, StateParse.parsed a t⟩ ex
        (Except.ok email) enc
      = ⟨200,
          successBody email
            ((api.saveToken email ⟨gid, gsec, rt⟩).1.getConfiguredAccounts) enc t,
          true, (api.saveToken email ⟨gid, gsec, rt⟩).1⟩ := by
  unfold oauth2callback
  simp [hx]

/-! ### C3: the CSRF defense fails closed -/

/-- C3: every callback whose state fails to parse, or whose embedded secret
is not the configured setup secret, ends in a non-success response without
reaching the code exchange and without changing the broker state (so no
token is written) — regardless of the validity of the code. -/
theorem c3_callback_fails_closed (setupToken : Option String) (gid gsec : String)
    (api : WorkspaceAPI) (req : CallbackReq) (exchange : String → ExchangeResult)
    (profile : Except String String) (enc : String → String)
    (h : req.stateParam = StateParse.malformed ∨
      ∃ a t, req.stateParam = StateParse.parsed a t ∧ setupToken ≠ some t) :
    (oauth2callback setupToken gid gsec api req exchange profile enc).status ≠ 200 ∧
    (oauth2callback setupToken gid gsec api req exchange profile enc).didExchange = false ∧
    (oauth2callback setupToken gid gsec api req exchange profile enc).api = api := by
  obtain ⟨errP, codeP, stP⟩ := req
  cases errP with
  | some e =>
    rw [callback_error_some]
    exact ⟨by simp, rfl, rfl⟩
  | none =>
    cases codeP with
    | none =>
      rw [callback_code_none]
      exact ⟨by simp, rfl, rfl⟩
    | some code =>
      rcases h with hmal | ⟨a, t, hst, hne⟩
      · have hmal' : stP = StateParse.malformed := hmal
        subst hmal'
        rw [callback_state_malformed]
        exact ⟨by simp, rfl, rfl⟩
      · have hst' : stP = StateParse.parsed a t := hst
        subst hst'
        rw [callback_secret_mismatch setupToken gid gsec api code a t exchange profile enc hne]
        exact ⟨by simp, rfl, rfl⟩

/-- Witness for C3: a mismatched secret with a perfectly valid code (the
exchange oracle would succeed with a refresh token) still yields 403, no
exchange, and an unchanged store. -/
theorem c3_callback_fails_closed_witness :
    (oauth2callback (some "secret") "gid" "gsec"
        (initAPI "sa.json" "creds/tokens.json" none)
        ⟨none, some "goodcode", StateParse.parsed "iamnickurban@gmail.com" "wrong"⟩
        (fun _ => ExchangeResult.success (some "rtok"))
        (Except.ok "iamnickurban@gmail.com") (fun s => s)).status ≠ 200 ∧
    (oauth2callback (some "secret") "gid" "gsec"
        (initAPI "sa.json" "creds/tokens.json" none)
        ⟨none, some "goodcode", StateParse.parsed "iamnickurban@gmail.com" "wrong"⟩
        (fun _ => ExchangeResult.success (some "rtok"))
        (Except.ok "iamnickurban@gmail.com") (fun s => s)).didExchange = false ∧
    (oauth2callback (some "secret") "gid" "gsec"
        (initAPI "sa.json" "creds/tokens.json" none)
        ⟨none, some "goodcode", StateParse.parsed "iamnickurban@gmail.com" "wrong"⟩
        (fun _ => ExchangeResult.success (some "rtok"))
        (Except.ok "iamnickurban@gmail.com") (fun s => s)).api
      = initAPI "sa.json" "creds/tokens.json" none :=
  c3_callback_fails_closed (some "secret") "gid" "gsec"
    (initAPI "sa.json" "creds/tokens.json" none)
    ⟨none, some "goodcode", StateParse.parsed "iamnickurban@gmail.com" "wrong"⟩
    (fun _ => ExchangeResult.success (some "rtok"))
    (Except.ok "iamnickurban@gmail.com") (fun s => s)
    (Or.inr ⟨"iamnickurban@gmail.com", "wrong", rfl, by decide⟩)

/-! ### C4: a missing refresh token writes nothing -/

/-- C4: a callback that passes the state check and successfully exchanges
its code, but whose token response carries no refresh token, responds 400
with the revoke-and-retry message and leaves the broker state unchanged —
`saveToken` is not called. -/
theorem c4_no_refresh_no_write (gid gsec : String) (api : WorkspaceAPI)
    (a t code : String) (profile : Except String String) (enc : String → String) :
    oauth2callback (some t) gid gsec api ⟨none, some code, StateParse.parsed a t⟩
        (fun _ => ExchangeResult.success none) profile enc
      = ⟨400, noRefreshTokenBody, true, api⟩ := by
  unfold oauth2callback
  simp

/-! ### C5: the storage key is the provider-confirmed identity -/

/-- C5: every successful callback (status 200) stores the token record under
the email the provider confirmed via the profile query made with the fresh
credential, with the handler's client id/secret and the issued refresh
token; the account named in the state parameter, when it differs, gets no
entry (its binding is untouched). -/
theorem c5_key_is_confirmed_email (setupToken : Option String) (gid gsec : String)
    (api : WorkspaceAPI) (req : CallbackReq) (exchange : String → ExchangeResult)
    (profileEmail : String) (enc : String → String)
    (h : (oauth2callback setupToken gid gsec api req exchange
        (Except.ok profileEmail) enc).status = 200) :
    ∃ rt,
      (oauth2callback setupToken gid gsec api req exchange
          (Except.ok profileEmail) enc).api.tokens.find profileEmail
        = some ⟨gid, gsec, rt⟩ ∧
      ∀ a t, req.stateParam = StateParse.parsed a t → a ≠ profileEmail →
        (oauth2callback setupToken gid gsec api req exchange
            (Except.ok profileEmail) enc).api.tokens.find a
          = api.tokens.find a := by
  obtain ⟨errP, codeP, stP⟩ := req
  cases errP with
  | some e =>
    rw [callback_error_some] at h
    exact absurd h (by simp)
  | none =>
    cases codeP with
    | none =>
      rw [callback_code_none] at h
      exact absurd h (by simp)
    | some code =>
      cases stP with
      | missing =>
        rw [callback_state_missing] at h
        exact absurd h (by simp)
      | malformed =>
        rw [callback_state_malformed] at h
        exact absurd h (by simp)
      | parsed a0 t0 =>
        by_cases hsec : setupToken = some t0
        · subst hsec
          cases hx : exchange code with
          | failure msg =>
            rw [callback_exchange_failure _ _ _ _ _ _ msg _ _ _ hx] at h
            exact absurd h (by simp)
          | success orf =>
            cases orf with
            | none =>
              rw [callback_no_refresh _ _ _ _ _ _ _ _ _ hx] at h
              exact absurd h (by simp)
            | some rt =>
              refine ⟨rt, ?_, ?_⟩
              · rw [callback_success _ _ _ _ _ _ rt _ _ _ hx]
                simp [WorkspaceAPI.saveToken, SMap.find_set_self]
              · intro a t hat hne
                have hat' : StateParse.parsed a0 t0 = StateParse.parsed a t := hat
                injection hat' with ha ht
                subst ha
                rw [callback_success _ _ _ _ _ _ rt _ _ _ hx]
                simp [WorkspaceAPI.saveToken,
                  SMap.find_set_ne _ _ _ _ (Ne.symm hne)]
        · rw [callback_secret_mismatch _ _ _ _ _ _ _ _ _ _ hsec] at h
          exact absurd h (by simp)

/-- Witness for C5: the state names one OAuth account, the provider confirms
a different one; the record lands under the confirmed one and the named
account's (absent) binding is untouched. -/
theorem c5_key_is_confirmed_email_witness :
    ∃ rt,
      (oauth2callback (some "sec") "gid" "gsec"
          (initAPI "sa.json" "creds/tokens.json" none)
          ⟨none, some "codeA", StateParse.parsed "outliyraffiliates@gmail.com" "sec"⟩
          (fun _ => ExchangeResult.success (some "rtok"))
          (Except.ok "iamnickurban@gmail.com") (fun s => s)).api.tokens.find
            "iamnickurban@gmail.com"
        = some ⟨"gid", "gsec", rt⟩ ∧
      ∀ a t,
        (⟨none, some "codeA",
            StateParse.parsed "outliyraffiliates@gmail.com" "sec"⟩ :
              CallbackReq).stateParam = StateParse.parsed a t →
        a ≠ "iamnickurban@gmail.com" →
        (oauth2callback (some "sec") "gid" "gsec"
            (initAPI "sa.json" "creds/tokens.json" none)
            ⟨none, some "codeA", StateParse.parsed "outliyraffiliates@gmail.com" "sec"⟩
            (fun _ => ExchangeResult.success (some "rtok"))
            (Except.ok "iamnickurban@gmail.com") (fun s => s)).api.tokens.find a
          = (initAPI "sa.json" "creds/tokens.json" none).tokens.find a :=
  c5_key_is_confirmed_email (some "sec") "gid" "gsec"
    (initAPI "sa.json" "creds/tokens.json" none)
    ⟨none, some "codeA", StateParse.parsed "outliyraffiliates@gmail.com" "sec"⟩
    (fun _ => ExchangeResult.success (some "rtok"))
    "iamnickurban@gmail.com" (fun s => s) rfl

/-! ### C10: behaviour when no setup secret is configured -/

/-- C10 as stated is false at requests that never reach the secret check: a
callback with a parseable state but no code is rejected with 400, not 403,
even though the setup secret is unconfigured. -/
theorem c10_counterexample :
    (oauth2callback none "gid" "gsec" (initAPI "sa.json" "creds/tokens.json" none)
        ⟨none, none, StateParse.parsed "iamnickurban@gmail.com" "tok"⟩
        (fun _ => ExchangeResult.success (some "rtok"))
        (Except.ok "iamnickurban@gmail.com") (fun s => s)).status = 400 ∧
    (oauth2callback none "gid" "gsec" (initAPI "sa.json" "creds/tokens.json" none)
        ⟨none, none, StateParse.parsed "iamnickurban@gmail.com" "tok"⟩
        (fun _ => ExchangeResult.success (some "rtok"))
        (Except.ok "iamnickurban@gmail.com") (fun s => s)).status ≠ 403 :=
  ⟨rfl, by decide⟩

/-- C10 amended: with no setup secret configured, every `GET /setup` request
is rejected with 403; no callback ever succeeds, reaches the code exchange,
or changes the broker state; and a callback with a parseable state, a
present code and no provider error is rejected with 403 (requests failing
the earlier checks are rejected with 400). -/
theorem c10_amended :
    (∀ (api : WorkspaceAPI) (req : SetupReq), (setupHandler none api req).1 = 403) ∧
    (∀ (gid gsec : String) (api : WorkspaceAPI) (req : CallbackReq)
        (ex : String → ExchangeResult) (pr : Except String String)
        (enc : String → String),
      (oauth2callback none gid gsec api req ex pr enc).status ≠ 200 ∧
      (oauth2callback none gid gsec api req ex pr enc).didExchange = false ∧
      (oauth2callback none gid gsec api req ex pr enc).api = api) ∧
    (∀ (gid gsec : String) (api : WorkspaceAPI) (code a t : String)
        (ex : String → ExchangeResult) (pr : Except String String)
        (enc : String → String),
      (oauth2callback none gid gsec api ⟨none, some code, StateParse.parsed a t⟩
          ex pr enc).status = 403) := by
  refine ⟨fun api req => rfl, ?_, ?_⟩
  · intro gid gsec api req ex pr enc
    obtain ⟨errP, codeP, stP⟩ := req
    cases errP with
    | some e =>
      rw [callback_error_some]
      exact ⟨by simp, rfl, rfl⟩
    | none =>
      cases codeP with
      | none =>
        rw [callback_code_none]
        exact ⟨by simp, rfl, rfl⟩
      | some code =>
        cases stP with
        | missing =>
          rw [callback_state_missing]
          exact ⟨by simp, rfl, rfl⟩
        | malformed =>
          rw [callback_state_malformed]
          exact ⟨by simp, rfl, rfl⟩
        | parsed a t =>
          rw [callback_secret_mismatch none gid gsec api code a t ex pr enc
            (fun hcontra => Option.noConfusion hcontra)]
          exact ⟨by simp, rfl, rfl⟩
  · intro gid gsec api code a t ex pr enc
    rw [callback_secret_mismatch none gid gsec api code a t ex pr enc
      (fun hcontra => Option.noConfusion hcontra)]

/-- Witness for C10 amended at concrete requests: the unconfigured gate
rejects a setup request carrying a token, and a well-formed callback, both
with 403. -/
theorem c10_amended_witness :
    (setupHandler none (initAPI "sa.json" "creds/tokens.json" none)
        ⟨some "guess", some "iamnickurban@gmail.com"⟩).1 = 403 ∧
    (oauth2callback none "gid" "gsec" (initAPI "sa.json" "creds/tokens.json" none)
        ⟨none, some "codeA", StateParse.parsed "iamnickurban@gmail.com" "guess"⟩
        (fun _ => ExchangeResult.success (some "rtok"))
        (Except.ok "iamnickurban@gmail.com") (fun s => s)).status = 403 :=
  ⟨c10_amended.1 (initAPI "sa.json" "creds/tokens.json" none)
      ⟨some "guess", some "iamnickurban@gmail.com"⟩,
    c10_amended.2.2 "gid" "gsec" (initAPI "sa.json" "creds/tokens.json" none)
      "codeA" "iamnickurban@gmail.com" "guess"
      (fun _ => ExchangeResult.success (some "rtok"))
      (Except.ok "iamnickurban@gmail.com") (fun s => s)⟩

end GWorkspace

